import Mathlib

/-!
Verification of the adagentos-backend query pipeline.

JavaScript strings are modelled as lists of characters (`JStr`), JavaScript
numbers as exact rationals (`ℚ`), and the pipeline functions of the source
(`validateSQL`, `detectVisualization`, `parseFilterValues`,
`detectRequestedMetrics`, `aggregateSingleResult`, `aggregateByDimension`,
the generator-response parsing and the chat-endpoint error boundary) as
executable Lean functions translated statement by statement from the source.
-/

set_option maxRecDepth 10000

/-- JavaScript strings, modelled as lists of characters. -/
abbrev JStr := List Char

/-- The character list of a Lean string literal. -/
def jstr (s : String) : JStr := s.data

/-- The single-quote character, written by code point to keep source text plain. -/
def singleQuote : Char := Char.ofNat 39

/-- JS `String.prototype.toUpperCase`, restricted to the ASCII range used here. -/
def jsToUpper (s : JStr) : JStr := s.map Char.toUpper

/-- JS `String.prototype.toLowerCase`, restricted to the ASCII range used here. -/
def jsToLower (s : JStr) : JStr := s.map Char.toLower

/-- JS `String.prototype.startsWith`. -/
def jsStartsWith : JStr → JStr → Bool
  | _, [] => true
  | [], _ :: _ => false
  | c :: s, p :: ps => c = p && jsStartsWith s ps

/-- JS `String.prototype.includes`: containment of a contiguous substring. -/
def jsIncludes (s pat : JStr) : Bool :=
  match s with
  | [] => jsStartsWith [] pat
  | _ :: rest => jsStartsWith s pat || jsIncludes rest pat

/-- JS `String.prototype.indexOf`, returning -1 when the pattern is absent. -/
def jsIndexOf (s pat : JStr) : Int :=
  match s with
  | [] => if jsStartsWith [] pat then 0 else -1
  | _ :: rest =>
    if jsStartsWith s pat then 0
    else
      let r := jsIndexOf rest pat
      if r = -1 then -1 else r + 1

/-- Whitespace for JS `trim` and the `\s` character class (the forms occurring here). -/
def jsIsSpace (c : Char) : Bool := c = ' ' || c = '\t' || c = '\n' || c = '\r'

/-- JS `String.prototype.trim`. -/
def jsTrim (s : JStr) : JStr :=
  ((s.dropWhile jsIsSpace).reverse.dropWhile jsIsSpace).reverse

/-- JS `String.prototype.split` with a one-character separator. -/
def jsSplitOnChar (sep : Char) : JStr → List JStr
  | [] => [[]]
  | c :: rest =>
    let r := jsSplitOnChar sep rest
    if c = sep then [] :: r
    else
      match r with
      | [] => [[c]]
      | h :: t => (c :: h) :: t

/-- JS `String.prototype.replace` with a plain-string pattern: replaces only the
first occurrence of `pat` by `repl`. -/
def jsReplaceFirst (s pat repl : JStr) : JStr :=
  match s with
  | [] => if jsStartsWith [] pat then repl else []
  | c :: rest =>
    if jsStartsWith s pat then repl ++ s.drop pat.length
    else c :: jsReplaceFirst rest pat repl

/-- Outcome of the SQL safety validation layer. -/
inductive SQLVerdict
  | valid
  | invalid (reason : JStr)
deriving DecidableEq

/-- The deny-list of `validateSQL`, in source order. -/
def dangerousKeywords : List JStr :=
  [jstr "DROP", jstr "DELETE", jstr "UPDATE", jstr "INSERT", jstr "ALTER",
   jstr "CREATE", jstr "EXEC", jstr "EXECUTE", jstr "TRUNCATE", jstr "GRANT",
   jstr "REVOKE"]

/-- Translation of `validateSQL` from `src/server.js` (second-generation pipeline): must start
with SELECT, no deny-listed keyword, at most one semicolon, and a reference to
the `video_ad_performance` table; checks run in that order, first failure wins. -/
def validateSQL (sql : JStr) : SQLVerdict :=
  let upperSQL := jsToUpper sql
  if !(jsStartsWith upperSQL (jstr "SELECT")) then
    .invalid (jstr "Only SELECT queries are allowed")
  else
    match dangerousKeywords.find? (fun keyword => jsIncludes upperSQL keyword) with
    | some keyword => .invalid (jstr "Dangerous keyword detected: " ++ keyword)
    | none =>
      if sql.count ';' > 1 then
        .invalid (jstr "Multiple queries not allowed")
      else if !(jsIncludes upperSQL (jstr "VIDEO_AD_PERFORMANCE")) then
        .invalid (jstr "Invalid table reference")
      else .valid

/-- Translation of `validateSQL` from `src/unnamed/part_001` (first-generation pipeline): same
rules except that rule (c) rejects any semicolon at all. -/
def validateSQLAnySemicolon (sql : JStr) : SQLVerdict :=
  let upperSQL := jsToUpper sql
  if !(jsStartsWith upperSQL (jstr "SELECT")) then
    .invalid (jstr "Only SELECT queries are allowed")
  else
    match dangerousKeywords.find? (fun keyword => jsIncludes upperSQL keyword) with
    | some keyword => .invalid (jstr "Dangerous keyword detected: " ++ keyword)
    | none =>
      if jsIncludes sql (jstr ";") then
        .invalid (jstr "Multiple queries not allowed")
      else if !(jsIncludes upperSQL (jstr "VIDEO_AD_PERFORMANCE")) then
        .invalid (jstr "Invalid table reference")
      else .valid

/-- The stacked-statement input named by the spec. -/
def stackedStatementInput : JStr :=
  jstr "SELECT * FROM video_ad_performance; DELETE FROM video_ad_performance"

/-- Claim C2 (counterexample): on the stacked-statement input the rule that
fires is the deny-list rule (b), with reason `Dangerous keyword detected:
DELETE` — not the statement-terminator-count rule (c), whose reason would be
`Multiple queries not allowed`. -/
theorem validateSQL_stacked_denyList_fires_not_terminatorCount :
    validateSQL stackedStatementInput =
      .invalid (jstr "Dangerous keyword detected: DELETE") ∧
    validateSQL stackedStatementInput ≠
      .invalid (jstr "Multiple queries not allowed") := by
  decide

/-- Claim C2 (amended): the Safety Validator does reject the stacked-statement
input, but by the deny-list rule (b), which is checked before the
terminator-count rule (c): the second statement's DELETE keyword matches the
deny-list.  Moreover the input holds exactly one terminator, so the
`server.js` count rule (count must not exceed one) would not by itself reject
it, while the stricter first-generation validator (any semicolon) would —
but in both versions the deny-list fires first. -/
theorem validateSQL_stacked_amended :
    validateSQL stackedStatementInput =
      .invalid (jstr "Dangerous keyword detected: DELETE") ∧
    validateSQLAnySemicolon stackedStatementInput =
      .invalid (jstr "Dangerous keyword detected: DELETE") ∧
    jsIncludes (jsToUpper stackedStatementInput) (jstr "DELETE") = true ∧
    stackedStatementInput.count ';' = 1 := by
  decide

/-- The shape/dimension result of `detectVisualization`: a `type` tag
("single" or "comparison") plus an optional dimension column name. -/
structure Visualization where
  type : JStr
  dimension : Option JStr
deriving DecidableEq

/-- Translation of `detectVisualization` from `src/server.js`: a query containing GROUP BY is a
comparison, with the dimension chosen by the first matching of four substring
checks (platform, region, age_group, gender); otherwise a single query. -/
def detectVisualization (sql : JStr) : Visualization :=
  let upperSQL := jsToUpper sql
  if jsIncludes upperSQL (jstr "GROUP BY") then
    let dimension : Option JStr :=
      if jsIncludes upperSQL (jstr "GROUP BY PLATFORM") then some (jstr "platform")
      else if jsIncludes upperSQL (jstr "GROUP BY REGION") then some (jstr "region")
      else if jsIncludes upperSQL (jstr "GROUP BY AGE_GROUP") then some (jstr "age_group")
      else if jsIncludes upperSQL (jstr "GROUP BY GENDER") then some (jstr "gender")
      else none
    { type := jstr "comparison", dimension := dimension }
  else
    { type := jstr "single", dimension := none }

/-- Claim C6: the Shape Detector returns `{single, dimension = null}` exactly
when the text has no GROUP BY (case-insensitively); otherwise it returns a
comparison whose dimension is the matching known column — platform, region,
age_group, gender, in that priority — or null when none of the four known
dimensions follows the grouping keyword. -/
theorem detectVisualization_spec (sql : JStr) :
    (detectVisualization sql = ⟨jstr "single", none⟩ ↔
      jsIncludes (jsToUpper sql) (jstr "GROUP BY") = false) ∧
    (jsIncludes (jsToUpper sql) (jstr "GROUP BY") = true →
      (detectVisualization sql).type = jstr "comparison" ∧
      ((detectVisualization sql).dimension = some (jstr "platform") ↔
        jsIncludes (jsToUpper sql) (jstr "GROUP BY PLATFORM") = true) ∧
      ((detectVisualization sql).dimension = some (jstr "region") ↔
        (jsIncludes (jsToUpper sql) (jstr "GROUP BY PLATFORM") = false ∧
         jsIncludes (jsToUpper sql) (jstr "GROUP BY REGION") = true)) ∧
      ((detectVisualization sql).dimension = some (jstr "age_group") ↔
        (jsIncludes (jsToUpper sql) (jstr "GROUP BY PLATFORM") = false ∧
         jsIncludes (jsToUpper sql) (jstr "GROUP BY REGION") = false ∧
         jsIncludes (jsToUpper sql) (jstr "GROUP BY AGE_GROUP") = true)) ∧
      ((detectVisualization sql).dimension = some (jstr "gender") ↔
        (jsIncludes (jsToUpper sql) (jstr "GROUP BY PLATFORM") = false ∧
         jsIncludes (jsToUpper sql) (jstr "GROUP BY REGION") = false ∧
         jsIncludes (jsToUpper sql) (jstr "GROUP BY AGE_GROUP") = false ∧
         jsIncludes (jsToUpper sql) (jstr "GROUP BY GENDER") = true)) ∧
      ((detectVisualization sql).dimension = none ↔
        (jsIncludes (jsToUpper sql) (jstr "GROUP BY PLATFORM") = false ∧
         jsIncludes (jsToUpper sql) (jstr "GROUP BY REGION") = false ∧
         jsIncludes (jsToUpper sql) (jstr "GROUP BY AGE_GROUP") = false ∧
         jsIncludes (jsToUpper sql) (jstr "GROUP BY GENDER") = false))) := by
  cases hGB : jsIncludes (jsToUpper sql) (jstr "GROUP BY") <;>
    cases hP : jsIncludes (jsToUpper sql) (jstr "GROUP BY PLATFORM") <;>
    cases hR : jsIncludes (jsToUpper sql) (jstr "GROUP BY REGION") <;>
    cases hA : jsIncludes (jsToUpper sql) (jstr "GROUP BY AGE_GROUP") <;>
    cases hG : jsIncludes (jsToUpper sql) (jstr "GROUP BY GENDER") <;>
    simp [detectVisualization, hGB, hP, hR, hA, hG] <;> decide

/-- Input used to exercise `detectVisualization_spec` at a concrete point. -/
def groupByPlatformSql : JStr :=
  jstr "SELECT platform, SUM(spend) FROM video_ad_performance GROUP BY platform"

/-- Witness for C6: the spec theorem, instantiated at a concrete GROUP BY
platform query, yields the comparison/platform shape of the spec example. -/
theorem detectVisualization_spec_witness :
    (detectVisualization groupByPlatformSql).type = jstr "comparison" ∧
    (detectVisualization groupByPlatformSql).dimension = some (jstr "platform") := by
  have h := detectVisualization_spec groupByPlatformSql
  exact ⟨(h.2 (by decide)).1, ((h.2 (by decide)).2.1).mpr (by decide)⟩

/-- Case-insensitive literal prefix strip, as performed by a regex with the
`i` flag on a plain pattern: on success returns the remaining suffix. -/
def stripPrefixCI : JStr → JStr → Option JStr
  | [], s => some s
  | _ :: _, [] => none
  | p :: ps, c :: cs => if p.toLower = c.toLower then stripPrefixCI ps cs else none

/-- Attempt to match the `parseFilterValues` single-value regex
`column\s*=\s*'([^']+)'` at the start of `s`; returns the captured group. -/
def matchSingleAt (col s : JStr) : Option JStr :=
  match stripPrefixCI col s with
  | none => none
  | some r1 =>
    let r2 := r1.dropWhile jsIsSpace
    match r2 with
    | [] => none
    | c :: r3 =>
      if c = '=' then
        let r4 := r3.dropWhile jsIsSpace
        match r4 with
        | [] => none
        | q :: r5 =>
          if q = singleQuote then
            let captured := r5.takeWhile (fun ch => !(ch == singleQuote))
            let rest := r5.dropWhile (fun ch => !(ch == singleQuote))
            if captured.isEmpty then none
            else
              match rest with
              | q2 :: _ => if q2 = singleQuote then some captured else none
              | [] => none
          else none
      else none

/-- Attempt to match the `parseFilterValues` IN-clause regex
`column\s+IN\s*\(([^)]+)\)` at the start of `s`; returns the captured group. -/
def matchInAt (col s : JStr) : Option JStr :=
  match stripPrefixCI col s with
  | none => none
  | some r1 =>
    match r1 with
    | [] => none
    | c :: rest =>
      if jsIsSpace c then
        let r2 := rest.dropWhile jsIsSpace
        match stripPrefixCI (jstr "IN") r2 with
        | none => none
        | some r3 =>
          let r4 := r3.dropWhile jsIsSpace
          match r4 with
          | [] => none
          | c2 :: r5 =>
            if c2 = '(' then
              let captured := r5.takeWhile (fun ch => !(ch == ')'))
              let rest2 := r5.dropWhile (fun ch => !(ch == ')'))
              if captured.isEmpty then none
              else
                match rest2 with
                | c3 :: _ => if c3 = ')' then some captured else none
                | [] => none
            else none
      else none

/-- Leftmost match of a position matcher over a string, as `String.prototype.match`
finds the first position where the regex matches. -/
def firstMatchBy (f : JStr → Option JStr) : JStr → Option JStr
  | [] => f []
  | c :: rest =>
    match f (c :: rest) with
    | some v => some v
    | none => firstMatchBy f rest

/-- Translation of `parseFilterValues` from `src/server.js`: first try the single-equality
pattern, then the IN-list pattern (splitting the captured group on commas,
trimming, stripping quotes, and dropping empties); null when neither matches. -/
def parseFilterValues (sql columnName : JStr) : Option (List JStr) :=
  match firstMatchBy (matchSingleAt columnName) sql with
  | some v => some [v]
  | none =>
    match firstMatchBy (matchInAt columnName) sql with
    | some grp =>
      some (((jsSplitOnChar ',' grp).map
        (fun v => (jsTrim v).filter (fun ch => !(ch == singleQuote)))).filter
          (fun v => !v.isEmpty))
    | none => none

/-- A query text carrying the IN-list predicate of the spec example. -/
def platformInSql : JStr :=
  jstr "SELECT * FROM video_ad_performance WHERE platform IN (" ++
    [singleQuote] ++ jstr "TikTok" ++ [singleQuote] ++ [','] ++
    [singleQuote] ++ jstr "YouTube" ++ [singleQuote] ++ jstr ")"

/-- Claim C7: on the spec example text, the Filter Extractor returns exactly
the two-element list TikTok, YouTube for column `platform`; and whenever
neither the equality pattern nor the IN pattern matches anywhere in the text,
it returns null (so it never reports the absence of a filter as an empty list). -/
theorem parseFilterValues_spec :
    parseFilterValues platformInSql (jstr "platform") =
      some [jstr "TikTok", jstr "YouTube"] ∧
    (∀ sql columnName : JStr,
      firstMatchBy (matchSingleAt columnName) sql = none →
      firstMatchBy (matchInAt columnName) sql = none →
      parseFilterValues sql columnName = none) := by
  refine ⟨by decide, ?_⟩
  intro sql columnName h1 h2
  unfold parseFilterValues
  rw [h1, h2]

/-- Witness for C7: a text with no `platform` predicate at all yields null. -/
theorem parseFilterValues_spec_witness :
    parseFilterValues (jstr "SELECT * FROM video_ad_performance") (jstr "platform") =
      none :=
  parseFilterValues_spec.2 (jstr "SELECT * FROM video_ad_performance")
    (jstr "platform") (by decide) (by decide)

/-- The goal/SQL parsing step of `queryGeneratorAgent` in `src/unnamed/part_000`
(lines 146-173): trim the generator response; when both the `GOAL:` and `SQL:`
markers occur, take the goal from the first line starting with `GOAL:`
(stripping the marker and trimming) and the query text from everything after
the first `SQL:`; otherwise keep the default goal CONVERSION and treat the
whole trimmed response as query text.  Returns (goal, sql). -/
def parseGeneratorResponse (response : JStr) : JStr × JStr :=
  let content := jsTrim response
  if jsIncludes content (jstr "GOAL:") && jsIncludes content (jstr "SQL:") then
    let lines := jsSplitOnChar '\n' content
    let goalLine? := lines.find? (fun line => jsStartsWith line (jstr "GOAL:"))
    let goal :=
      match goalLine? with
      | some goalLine => jsTrim (jsReplaceFirst goalLine (jstr "GOAL:") [])
      | none => jstr "CONVERSION"
    let sqlStart := jsIndexOf content (jstr "SQL:")
    let sql :=
      if sqlStart ≠ -1 then jsTrim (content.drop (sqlStart + 4).toNat)
      else content
    (goal, sql)
  else
    (jstr "CONVERSION", content)

/-- The query-vs-conversational test applied to the parsed query text in
`src/unnamed/part_000`: `sql.toUpperCase().includes("SELECT")`. -/
def responseIsSQL (sql : JStr) : Bool :=
  jsIncludes (jsToUpper sql) (jstr "SELECT")

/-- A generator response whose GOAL line carries a tag outside the enumeration. -/
def reachResponse : JStr :=
  jstr "GOAL: REACH\nSQL: SELECT * FROM video_ad_performance"

/-- Claim C5 (counterexample): the goal-parsing step copies whatever text
follows the `GOAL:` marker, so a generator response tagged `GOAL: REACH`
produces the goal string REACH — a value outside {AWARENESS, ENGAGEMENT,
CONVERSION}, contradicting the claim that the produced tag always lies in
that set. -/
theorem parseGeneratorResponse_goal_outside_enumeration :
    (parseGeneratorResponse reachResponse).1 = jstr "REACH" ∧
    (parseGeneratorResponse reachResponse).1 ≠ jstr "AWARENESS" ∧
    (parseGeneratorResponse reachResponse).1 ≠ jstr "ENGAGEMENT" ∧
    (parseGeneratorResponse reachResponse).1 ≠ jstr "CONVERSION" := by
  decide

/-- Claim C5 (amended): the parse is total and deterministic, and whenever the
response lacks the GOAL:/SQL: marker pair, the goal defaults to CONVERSION and
the entire (trimmed) response is treated as query text; but when both markers
are present the goal is the trimmed text following `GOAL:`, which need not
belong to {AWARENESS, ENGAGEMENT, CONVERSION}. -/
theorem parseGeneratorResponse_default_conversion (response : JStr)
    (h : (jsIncludes (jsTrim response) (jstr "GOAL:") &&
          jsIncludes (jsTrim response) (jstr "SQL:")) = false) :
    parseGeneratorResponse response = (jstr "CONVERSION", jsTrim response) := by
  simp [parseGeneratorResponse, h]

/-- Witness for C5 (amended): a marker-free conversational response parses to
the default CONVERSION goal with the whole response as query text. -/
theorem parseGeneratorResponse_default_conversion_witness :
    parseGeneratorResponse (jstr "I can help! What would you like to explore?") =
      (jstr "CONVERSION", jstr "I can help! What would you like to explore?") :=
  (parseGeneratorResponse_default_conversion
    (jstr "I can help! What would you like to explore?") (by decide)).trans
    (by decide)

/-- Translation of `detectRequestedMetrics` from `src/unnamed/part_000` (goal-aware version):
goal-based selection takes priority (AWARENESS, ENGAGEMENT, CONVERSION in that
order); with no matching goal, a keyword cascade over the upper-cased SQL and
lower-cased question picks one metric set, defaulting to the financial bundle. -/
def detectRequestedMetrics (sql userQuestion : JStr) (goal : Option JStr) :
    List JStr :=
  if goal = some (jstr "AWARENESS") then [jstr "impressions", jstr "cpm"]
  else if goal = some (jstr "ENGAGEMENT") then [jstr "ctr"]
  else if goal = some (jstr "CONVERSION") then [jstr "financial"]
  else
    let upperSQL := jsToUpper sql
    let lowerQuestion := jsToLower userQuestion
    if jsIncludes upperSQL (jstr "VIDEO_COMPLETION_RATE") ||
        jsIncludes lowerQuestion (jstr "video completion") ||
        jsIncludes lowerQuestion (jstr "completion rate") then
      [jstr "video_completion_rate"]
    else if jsIncludes lowerQuestion (jstr "video") &&
        (jsIncludes lowerQuestion (jstr "funnel") ||
         jsIncludes lowerQuestion (jstr "drop") ||
         jsIncludes lowerQuestion (jstr "retention")) then
      [jstr "video_funnel"]
    else if jsIncludes lowerQuestion (jstr "3-second") ||
        jsIncludes lowerQuestion (jstr "3 second") ||
        jsIncludes upperSQL (jstr "VIEWS_3S") then
      [jstr "video_retention"]
    else if jsIncludes upperSQL (jstr "CTR") ||
        jsIncludes lowerQuestion (jstr "ctr") ||
        jsIncludes lowerQuestion (jstr "click-through") ||
        jsIncludes lowerQuestion (jstr "click through") then
      [jstr "ctr"]
    else if jsIncludes upperSQL (jstr "CONVERSION_RATE") ||
        (jsIncludes lowerQuestion (jstr "conversion") &&
         jsIncludes lowerQuestion (jstr "rate")) then
      [jstr "conversion_rate"]
    else if jsIncludes upperSQL (jstr "CPA") ||
        jsIncludes lowerQuestion (jstr "cost per acquisition") ||
        jsIncludes lowerQuestion (jstr "cpa") ||
        jsIncludes lowerQuestion (jstr "cost per conversion") ||
        jsIncludes lowerQuestion (jstr "acquisition cost") then
      [jstr "cpa"]
    else if jsIncludes upperSQL (jstr "CPM") ||
        jsIncludes lowerQuestion (jstr "cpm") ||
        jsIncludes lowerQuestion (jstr "cost per thousand") ||
        jsIncludes lowerQuestion (jstr "cost per mille") then
      [jstr "cpm"]
    else if jsIncludes lowerQuestion (jstr "conversion") &&
        !(jsIncludes lowerQuestion (jstr "rate")) then
      [jstr "conversions"]
    else if jsIncludes lowerQuestion (jstr "click") &&
        !(jsIncludes lowerQuestion (jstr "through")) &&
        !(jsIncludes lowerQuestion (jstr "rate")) then
      [jstr "clicks"]
    else if jsIncludes lowerQuestion (jstr "impression") then
      [jstr "impressions"]
    else if jsIncludes lowerQuestion (jstr "spend") &&
        !(jsIncludes lowerQuestion (jstr "revenue")) then
      [jstr "spend"]
    else if jsIncludes lowerQuestion (jstr "revenue") &&
        !(jsIncludes lowerQuestion (jstr "spend")) then
      [jstr "revenue"]
    else if jsIncludes upperSQL (jstr "ROAS") ||
        jsIncludes lowerQuestion (jstr "roas") ||
        jsIncludes lowerQuestion (jstr "return on ad") then
      [jstr "roas"]
    else if jsIncludes lowerQuestion (jstr "invest") ||
        jsIncludes lowerQuestion (jstr "budget") ||
        jsIncludes lowerQuestion (jstr "allocate") ||
        jsIncludes lowerQuestion (jstr "optimize") then
      [jstr "financial"]
    else if jsIncludes lowerQuestion (jstr "performance") ||
        jsIncludes lowerQuestion (jstr "compare") ||
        jsIncludes lowerQuestion (jstr "best") ||
        jsIncludes lowerQuestion (jstr "top") then
      if jsIncludes lowerQuestion (jstr "video") then [jstr "video_completion_rate"]
      else [jstr "financial"]
    else [jstr "financial"]

/-- An if-then-else of nonempty lists is nonempty. -/
theorem ite_ne_nil {α : Type} {c : Prop} [Decidable c] {a b : List α}
    (ha : a ≠ []) (hb : b ≠ []) : (if c then a else b) ≠ [] := by
  split_ifs <;> assumption

set_option maxHeartbeats 2000000 in
/-- Claim C9: with a goal tag supplied the Metric Selector ignores both texts —
AWARENESS yields [impressions, cpm], ENGAGEMENT yields [ctr], CONVERSION yields
[financial] — and on every input combination it returns exactly one, nonempty,
metric set. -/
theorem detectRequestedMetrics_goal_priority :
    (∀ sql q : JStr,
      detectRequestedMetrics sql q (some (jstr "AWARENESS")) =
        [jstr "impressions", jstr "cpm"]) ∧
    (∀ sql q : JStr,
      detectRequestedMetrics sql q (some (jstr "ENGAGEMENT")) = [jstr "ctr"]) ∧
    (∀ sql q : JStr,
      detectRequestedMetrics sql q (some (jstr "CONVERSION")) = [jstr "financial"]) ∧
    (∀ (sql q : JStr) (goal : Option JStr),
      detectRequestedMetrics sql q goal ≠ []) := by
  refine ⟨?_, ?_, ?_, ?_⟩
  · intro sql q
    unfold detectRequestedMetrics
    rw [if_pos rfl]
  · intro sql q
    unfold detectRequestedMetrics
    rw [if_neg (by decide), if_pos rfl]
  · intro sql q
    unfold detectRequestedMetrics
    rw [if_neg (by decide), if_neg (by decide), if_pos rfl]
  · intro sql q goal
    unfold detectRequestedMetrics
    dsimp only
    repeat'
      first
      | exact List.cons_ne_nil _ _
      | apply ite_ne_nil

/-- Witness for C9: the goal-priority equations and totality at concrete inputs. -/
theorem detectRequestedMetrics_goal_priority_witness :
    detectRequestedMetrics (jstr "SELECT 1") (jstr "show me roas")
      (some (jstr "AWARENESS")) = [jstr "impressions", jstr "cpm"] ∧
    detectRequestedMetrics (jstr "SELECT 1") (jstr "hello") none ≠ [] :=
  ⟨detectRequestedMetrics_goal_priority.1 (jstr "SELECT 1") (jstr "show me roas"),
   detectRequestedMetrics_goal_priority.2.2.2 (jstr "SELECT 1") (jstr "hello") none⟩

/-- One row of the `video_ad_performance` dataset.  JavaScript numbers are
modelled as exact rationals; dimension columns are strings. -/
structure Record where
  platform : JStr
  region : JStr
  age_group : JStr
  gender : JStr
  spend : ℚ
  impressions : ℚ
  clicks : ℚ
  conversions : ℚ
  revenue : ℚ
  video_starts : ℚ
  views_3s : ℚ
  views_25 : ℚ
  views_50 : ℚ
  views_100 : ℚ
deriving DecidableEq

/-- The ten summed counters accumulated by both aggregation helpers, in the
order the source initializes them. -/
structure Counters where
  spend : ℚ
  impressions : ℚ
  clicks : ℚ
  conversions : ℚ
  revenue : ℚ
  video_starts : ℚ
  views_3s : ℚ
  views_25 : ℚ
  views_50 : ℚ
  views_100 : ℚ
deriving DecidableEq

/-- The all-zero accumulator the source starts from. -/
def Counters.zero : Counters := ⟨0, 0, 0, 0, 0, 0, 0, 0, 0, 0⟩

/-- Componentwise accumulation, mirroring the ten `+=` statements. -/
def Counters.add (a b : Counters) : Counters :=
  ⟨a.spend + b.spend, a.impressions + b.impressions, a.clicks + b.clicks,
   a.conversions + b.conversions, a.revenue + b.revenue,
   a.video_starts + b.video_starts, a.views_3s + b.views_3s,
   a.views_25 + b.views_25, a.views_50 + b.views_50, a.views_100 + b.views_100⟩

/-- The counter contribution of one row (`parseFloat`/`parseInt` of each field,
with missing values already taken as zero). -/
def Record.counters (r : Record) : Counters :=
  ⟨r.spend, r.impressions, r.clicks, r.conversions, r.revenue,
   r.video_starts, r.views_3s, r.views_25, r.views_50, r.views_100⟩

/-- The `data.forEach` accumulation loop shared by `aggregateSingleResult`
and each group of `aggregateByDimension`. -/
def sumCounters (data : List Record) : Counters :=
  data.foldl (fun acc row => acc.add row.counters) Counters.zero

/-- JS `Math.round`: round to the nearest integer, halves toward plus
infinity. -/
def jsMathRound (q : ℚ) : ℚ := ((⌊q + 1 / 2⌋ : ℤ) : ℚ)

/-- JS `parseFloat(x.toFixed(2))`: round to two decimal places, halves toward
plus infinity (idealized over exact rationals). -/
def jsToFixed2 (q : ℚ) : ℚ := ((⌊q * 100 + 1 / 2⌋ : ℤ) : ℚ) / 100

/-- An Aggregate: the summed counters plus every derived metric, as the
aggregation helpers attach them. -/
structure Aggregate where
  spend : ℚ
  impressions : ℚ
  clicks : ℚ
  conversions : ℚ
  revenue : ℚ
  video_starts : ℚ
  views_3s : ℚ
  views_25 : ℚ
  views_50 : ℚ
  views_100 : ℚ
  roas : ℚ
  ctr : ℚ
  cpa : ℚ
  conversionRate : ℚ
  completionRate : ℚ
  video_completion_rate : ℚ
  cpm : ℚ
deriving DecidableEq

/-- The metric-computation block shared by `aggregateSingleResult` and
`aggregateByDimension`: each derived ratio is guarded by a positive
denominator check (zero otherwise), ROAS is integer-rounded by `Math.round`,
every other ratio passes through `toFixed(2)`. -/
def computeMetrics (c : Counters) : Aggregate :=
  { spend := c.spend
    impressions := c.impressions
    clicks := c.clicks
    conversions := c.conversions
    revenue := c.revenue
    video_starts := c.video_starts
    views_3s := c.views_3s
    views_25 := c.views_25
    views_50 := c.views_50
    views_100 := c.views_100
    roas := if c.spend > 0 then jsMathRound (c.revenue / c.spend) else 0
    ctr := if c.impressions > 0 then jsToFixed2 (c.clicks / c.impressions * 100) else 0
    cpa := if c.conversions > 0 then jsToFixed2 (c.spend / c.conversions) else 0
    conversionRate :=
      if c.clicks > 0 then jsToFixed2 (c.conversions / c.clicks * 100) else 0
    completionRate :=
      if c.video_starts > 0 then jsToFixed2 (c.views_100 / c.video_starts * 100) else 0
    video_completion_rate :=
      if c.video_starts > 0 then jsToFixed2 (c.views_100 / c.video_starts * 100) else 0
    cpm := if c.impressions > 0 then jsToFixed2 (c.spend / c.impressions * 1000) else 0 }

/-- Translation of `aggregateSingleResult` from `src/server.js` / `src/unnamed/part_000`:
sum every counter over the whole record list, then attach the derived
metrics. -/
def aggregateSingleResult (data : List Record) : Aggregate :=
  computeMetrics (sumCounters data)

/-- The dynamic column access `row[dimension]` for the dimension names the
pipeline uses; any other name reads an absent property, which lands every
row under the one `undefined` key, modelled by the empty key. -/
def dimValue (dimension : JStr) (row : Record) : JStr :=
  if dimension = jstr "platform" then row.platform
  else if dimension = jstr "region" then row.region
  else if dimension = jstr "age_group" then row.age_group
  else if dimension = jstr "gender" then row.gender
  else []

/-- One `forEach` step of `aggregateByDimension`: create the key's zero
accumulator on first sight (JS objects keep insertion order, hence the
append), then add the row's counters to that key. -/
def updateAssoc (acc : List (JStr × Counters)) (key : JStr) (rc : Counters) :
    List (JStr × Counters) :=
  match acc with
  | [] => [(key, rc)]
  | (k, c) :: rest =>
    if k = key then (k, c.add rc) :: rest
    else (k, c) :: updateAssoc rest key rc

/-- The grouping loop of `aggregateByDimension`, before metrics are attached. -/
def groupCounters (data : List Record) (dimension : JStr) :
    List (JStr × Counters) :=
  data.foldl (fun acc row => updateAssoc acc (dimValue dimension row) row.counters) []

/-- Translation of `aggregateByDimension` from `src/server.js` / `src/unnamed/part_000`:
group rows by their dimension value, sum counters per group, then attach the
derived metrics to every group. -/
def aggregateByDimension (data : List Record) (dimension : JStr) :
    List (JStr × Aggregate) :=
  (groupCounters data dimension).map (fun kv => (kv.1, computeMetrics kv.2))

theorem Counters.add_zero' (a : Counters) : a.add Counters.zero = a := by
  cases a; simp [Counters.add, Counters.zero]

theorem Counters.zero_add' (a : Counters) : Counters.zero.add a = a := by
  cases a; simp [Counters.add, Counters.zero]

theorem Counters.add_assoc' (a b c : Counters) :
    (a.add b).add c = a.add (b.add c) := by
  cases a; cases b; cases c; simp [Counters.add, add_assoc]

theorem Counters.add_comm' (a b : Counters) : a.add b = b.add a := by
  cases a; cases b; simp [Counters.add, add_comm]

/-- The componentwise total of the accumulators of a grouped association list. -/
def countersTotal (l : List (JStr × Counters)) : Counters :=
  l.foldr (fun p acc => p.2.add acc) Counters.zero

@[simp] theorem countersTotal_nil : countersTotal [] = Counters.zero := rfl

@[simp] theorem countersTotal_cons (p : JStr × Counters) (l : List (JStr × Counters)) :
    countersTotal (p :: l) = p.2.add (countersTotal l) := rfl

/-- Accumulating one row into the association list adds its counters to the
total, wherever the key lands. -/
theorem countersTotal_updateAssoc (acc : List (JStr × Counters)) (key : JStr)
    (rc : Counters) :
    countersTotal (updateAssoc acc key rc) = (countersTotal acc).add rc := by
  induction acc with
  | nil =>
    show rc.add Counters.zero = Counters.zero.add rc
    rw [Counters.add_zero', Counters.zero_add']
  | cons p rest ih =>
    obtain ⟨k, c⟩ := p
    unfold updateAssoc
    by_cases h : k = key
    · rw [if_pos h]
      show (c.add rc).add (countersTotal rest) = (c.add (countersTotal rest)).add rc
      rw [Counters.add_assoc', Counters.add_assoc', Counters.add_comm' rc]
    · rw [if_neg h]
      show c.add (countersTotal (updateAssoc rest key rc)) =
        (c.add (countersTotal rest)).add rc
      rw [ih, Counters.add_assoc']

/-- Invariant of the grouping fold: the total of the association list tracks
the plain counter fold over the rows. -/
theorem countersTotal_groupFold (dimension : JStr) (data : List Record) :
    ∀ acc : List (JStr × Counters),
      countersTotal (data.foldl
        (fun a row => updateAssoc a (dimValue dimension row) row.counters) acc) =
      data.foldl (fun c row => c.add row.counters) (countersTotal acc) := by
  induction data with
  | nil => intro acc; rfl
  | cons r rest ih =>
    intro acc
    simp only [List.foldl_cons]
    rw [ih, countersTotal_updateAssoc]

/-- The grouped totals equal the single-pass totals. -/
theorem groupCounters_total (data : List Record) (dimension : JStr) :
    countersTotal (groupCounters data dimension) = sumCounters data := by
  unfold groupCounters sumCounters
  rw [countersTotal_groupFold]
  rfl

/-- Projection of the association-list total through any additive counter
component. -/
theorem countersTotal_proj (f : Counters → ℚ)
    (hadd : ∀ a b : Counters, f (a.add b) = f a + f b)
    (hz : f Counters.zero = 0) (l : List (JStr × Counters)) :
    f (countersTotal l) = (l.map (fun p => f p.2)).sum := by
  induction l with
  | nil => simpa using hz
  | cons p rest ih => simp [hadd, ih]

/-- Summing one counter component over all groups of `aggregateByDimension`
matches the same component of `aggregateSingleResult`. -/
theorem byDimension_counter_sum (fA : Aggregate → ℚ) (fC : Counters → ℚ)
    (hAC : ∀ c : Counters, fA (computeMetrics c) = fC c)
    (hadd : ∀ a b : Counters, fC (a.add b) = fC a + fC b)
    (hz : fC Counters.zero = 0) (data : List Record) (dimension : JStr) :
    ((aggregateByDimension data dimension).map (fun g => fA g.2)).sum =
      fA (aggregateSingleResult data) := by
  unfold aggregateByDimension aggregateSingleResult
  rw [List.map_map]
  have hmap : ((groupCounters data dimension).map
      ((fun g : JStr × Aggregate => fA g.2) ∘ (fun kv => (kv.1, computeMetrics kv.2)))) =
      (groupCounters data dimension).map (fun p => fC p.2) := by
    simp [Function.comp, hAC]
  rw [hmap, ← countersTotal_proj fC hadd hz, groupCounters_total]
  rw [hAC]

/-- Claim C3: aggregation is sum-homogeneous — for every record list and every
dimension, each numeric counter summed across all groups of
`aggregateByDimension` equals that counter in `aggregateSingleResult`;
grouping never drops or double-counts a row. -/
theorem aggregation_sum_homogeneous (data : List Record) (dimension : JStr) :
    ((aggregateByDimension data dimension).map (fun g => g.2.spend)).sum =
      (aggregateSingleResult data).spend ∧
    ((aggregateByDimension data dimension).map (fun g => g.2.impressions)).sum =
      (aggregateSingleResult data).impressions ∧
    ((aggregateByDimension data dimension).map (fun g => g.2.clicks)).sum =
      (aggregateSingleResult data).clicks ∧
    ((aggregateByDimension data dimension).map (fun g => g.2.conversions)).sum =
      (aggregateSingleResult data).conversions ∧
    ((aggregateByDimension data dimension).map (fun g => g.2.revenue)).sum =
      (aggregateSingleResult data).revenue ∧
    ((aggregateByDimension data dimension).map (fun g => g.2.video_starts)).sum =
      (aggregateSingleResult data).video_starts ∧
    ((aggregateByDimension data dimension).map (fun g => g.2.views_3s)).sum =
      (aggregateSingleResult data).views_3s ∧
    ((aggregateByDimension data dimension).map (fun g => g.2.views_25)).sum =
      (aggregateSingleResult data).views_25 ∧
    ((aggregateByDimension data dimension).map (fun g => g.2.views_50)).sum =
      (aggregateSingleResult data).views_50 ∧
    ((aggregateByDimension data dimension).map (fun g => g.2.views_100)).sum =
      (aggregateSingleResult data).views_100 :=
  ⟨byDimension_counter_sum _ (fun c => c.spend) (fun _ => rfl) (fun _ _ => rfl) rfl data dimension,
   byDimension_counter_sum _ (fun c => c.impressions) (fun _ => rfl) (fun _ _ => rfl) rfl data dimension,
   byDimension_counter_sum _ (fun c => c.clicks) (fun _ => rfl) (fun _ _ => rfl) rfl data dimension,
   byDimension_counter_sum _ (fun c => c.conversions) (fun _ => rfl) (fun _ _ => rfl) rfl data dimension,
   byDimension_counter_sum _ (fun c => c.revenue) (fun _ => rfl) (fun _ _ => rfl) rfl data dimension,
   byDimension_counter_sum _ (fun c => c.video_starts) (fun _ => rfl) (fun _ _ => rfl) rfl data dimension,
   byDimension_counter_sum _ (fun c => c.views_3s) (fun _ => rfl) (fun _ _ => rfl) rfl data dimension,
   byDimension_counter_sum _ (fun c => c.views_25) (fun _ => rfl) (fun _ _ => rfl) rfl data dimension,
   byDimension_counter_sum _ (fun c => c.views_50) (fun _ => rfl) (fun _ _ => rfl) rfl data dimension,
   byDimension_counter_sum _ (fun c => c.views_100) (fun _ => rfl) (fun _ _ => rfl) rfl data dimension⟩

/-- Every metric computed from a zero denominator sum is exactly zero. -/
theorem computeMetrics_zero_safe (c : Counters) :
    ((computeMetrics c).spend = 0 → (computeMetrics c).roas = 0) ∧
    ((computeMetrics c).impressions = 0 →
      (computeMetrics c).ctr = 0 ∧ (computeMetrics c).cpm = 0) ∧
    ((computeMetrics c).conversions = 0 → (computeMetrics c).cpa = 0) ∧
    ((computeMetrics c).clicks = 0 → (computeMetrics c).conversionRate = 0) ∧
    ((computeMetrics c).video_starts = 0 → (computeMetrics c).completionRate = 0 ∧
      (computeMetrics c).video_completion_rate = 0) := by
  simp only [computeMetrics]
  refine ⟨?_, ?_, ?_, ?_, ?_⟩ <;> intro h <;> simp [h]

/-- Every member of `aggregateByDimension` is a `computeMetrics` image. -/
theorem mem_aggregateByDimension (data : List Record) (dimension : JStr)
    (g : JStr × Aggregate) (hg : g ∈ aggregateByDimension data dimension) :
    ∃ c : Counters, g.2 = computeMetrics c := by
  unfold aggregateByDimension at hg
  obtain ⟨kv, _, rfl⟩ := List.mem_map.mp hg
  exact ⟨kv.2, rfl⟩

/-- Claim C1: every derived ratio whose denominator sum is zero is exactly
zero — for `aggregateSingleResult`, for every group of
`aggregateByDimension`, and in particular the empty record list aggregates to
the all-zero Aggregate (all counter sums 0 and ctr = roas = cpm = cpa = 0). -/
theorem aggregate_zero_denominator_safe :
    (∀ data : List Record,
      ((aggregateSingleResult data).spend = 0 → (aggregateSingleResult data).roas = 0) ∧
      ((aggregateSingleResult data).impressions = 0 →
        (aggregateSingleResult data).ctr = 0 ∧ (aggregateSingleResult data).cpm = 0) ∧
      ((aggregateSingleResult data).conversions = 0 →
        (aggregateSingleResult data).cpa = 0) ∧
      ((aggregateSingleResult data).clicks = 0 →
        (aggregateSingleResult data).conversionRate = 0) ∧
      ((aggregateSingleResult data).video_starts = 0 →
        (aggregateSingleResult data).completionRate = 0 ∧
        (aggregateSingleResult data).video_completion_rate = 0)) ∧
    (∀ (data : List Record) (dimension : JStr) (g : JStr × Aggregate),
      g ∈ aggregateByDimension data dimension →
      ((g.2.spend = 0 → g.2.roas = 0) ∧
       (g.2.impressions = 0 → g.2.ctr = 0 ∧ g.2.cpm = 0) ∧
       (g.2.conversions = 0 → g.2.cpa = 0) ∧
       (g.2.clicks = 0 → g.2.conversionRate = 0) ∧
       (g.2.video_starts = 0 → g.2.completionRate = 0 ∧
         g.2.video_completion_rate = 0))) ∧
    aggregateSingleResult [] =
      { spend := 0, impressions := 0, clicks := 0, conversions := 0, revenue := 0,
        video_starts := 0, views_3s := 0, views_25 := 0, views_50 := 0,
        views_100 := 0, roas := 0, ctr := 0, cpa := 0, conversionRate := 0,
        completionRate := 0, video_completion_rate := 0, cpm := 0 } := by
  refine ⟨fun data => computeMetrics_zero_safe (sumCounters data), ?_, ?_⟩
  · intro data dimension g hg
    obtain ⟨c, hc⟩ := mem_aggregateByDimension data dimension g hg
    rw [hc]
    exact computeMetrics_zero_safe c
  · decide

/-- Witness for C1: the empty record list yields the all-zero counters and all
derived metrics equal to zero. -/
theorem aggregate_zero_denominator_safe_witness :
    (aggregateSingleResult []).ctr = 0 ∧ (aggregateSingleResult []).roas = 0 ∧
    (aggregateSingleResult []).cpm = 0 ∧ (aggregateSingleResult []).cpa = 0 :=
  ⟨((aggregate_zero_denominator_safe.1 []).2.1 (by decide)).1,
   (aggregate_zero_denominator_safe.1 []).1 (by decide),
   ((aggregate_zero_denominator_safe.1 []).2.1 (by decide)).2,
   (aggregate_zero_denominator_safe.1 []).2.2.1 (by decide)⟩

/-- With a positive denominator, each metric equals its formula under the
source's rounding: ROAS through `Math.round` (floor of value plus one half),
every other ratio through `toFixed(2)` (two-decimal rounding). -/
theorem computeMetrics_rounding (c : Counters) :
    ((computeMetrics c).spend > 0 →
      (computeMetrics c).roas =
        ((⌊(computeMetrics c).revenue / (computeMetrics c).spend + 1 / 2⌋ : ℤ) : ℚ)) ∧
    ((computeMetrics c).impressions > 0 →
      (computeMetrics c).ctr =
        ((⌊(computeMetrics c).clicks / (computeMetrics c).impressions * 100 * 100 + 1 / 2⌋ : ℤ) : ℚ) / 100) ∧
    ((computeMetrics c).conversions > 0 →
      (computeMetrics c).cpa =
        ((⌊(computeMetrics c).spend / (computeMetrics c).conversions * 100 + 1 / 2⌋ : ℤ) : ℚ) / 100) ∧
    ((computeMetrics c).clicks > 0 →
      (computeMetrics c).conversionRate =
        ((⌊(computeMetrics c).conversions / (computeMetrics c).clicks * 100 * 100 + 1 / 2⌋ : ℤ) : ℚ) / 100) ∧
    ((computeMetrics c).video_starts > 0 →
      (computeMetrics c).completionRate =
        ((⌊(computeMetrics c).views_100 / (computeMetrics c).video_starts * 100 * 100 + 1 / 2⌋ : ℤ) : ℚ) / 100) ∧
    ((computeMetrics c).impressions > 0 →
      (computeMetrics c).cpm =
        ((⌊(computeMetrics c).spend / (computeMetrics c).impressions * 1000 * 100 + 1 / 2⌋ : ℤ) : ℚ) / 100) := by
  simp only [computeMetrics]
  refine ⟨?_, ?_, ?_, ?_, ?_, ?_⟩ <;> intro h <;>
    simp [h, jsMathRound, jsToFixed2]

/-- A concrete record on which CTR rounds to a non-integer two-decimal value. -/
def ctrExampleRecord : Record :=
  { platform := jstr "TikTok", region := jstr "West", age_group := jstr "18-24",
    gender := jstr "male", spend := 2, impressions := 3, clicks := 1,
    conversions := 1, revenue := 5, video_starts := 1, views_3s := 1,
    views_25 := 1, views_50 := 1, views_100 := 1 }

/-- Claim C4: in every computed Aggregate (single or per-group) with positive
spend, ROAS is revenue/spend rounded to the nearest integer, while ctr, cpa,
conversionRate, completionRate and cpm are their ratio formulas rounded to two
decimal places; the integer rounding applies to ROAS and only to ROAS — on the
example record the computed CTR is the non-integer 33.33 while ROAS is an
integer. -/
theorem aggregate_rounding_spec :
    (∀ data : List Record,
      ((aggregateSingleResult data).spend > 0 →
        (aggregateSingleResult data).roas =
          ((⌊(aggregateSingleResult data).revenue / (aggregateSingleResult data).spend + 1 / 2⌋ : ℤ) : ℚ)) ∧
      ((aggregateSingleResult data).impressions > 0 →
        (aggregateSingleResult data).ctr =
          ((⌊(aggregateSingleResult data).clicks / (aggregateSingleResult data).impressions * 100 * 100 + 1 / 2⌋ : ℤ) : ℚ) / 100) ∧
      ((aggregateSingleResult data).conversions > 0 →
        (aggregateSingleResult data).cpa =
          ((⌊(aggregateSingleResult data).spend / (aggregateSingleResult data).conversions * 100 + 1 / 2⌋ : ℤ) : ℚ) / 100) ∧
      ((aggregateSingleResult data).clicks > 0 →
        (aggregateSingleResult data).conversionRate =
          ((⌊(aggregateSingleResult data).conversions / (aggregateSingleResult data).clicks * 100 * 100 + 1 / 2⌋ : ℤ) : ℚ) / 100) ∧
      ((aggregateSingleResult data).video_starts > 0 →
        (aggregateSingleResult data).completionRate =
          ((⌊(aggregateSingleResult data).views_100 / (aggregateSingleResult data).video_starts * 100 * 100 + 1 / 2⌋ : ℤ) : ℚ) / 100) ∧
      ((aggregateSingleResult data).impressions > 0 →
        (aggregateSingleResult data).cpm =
          ((⌊(aggregateSingleResult data).spend / (aggregateSingleResult data).impressions * 1000 * 100 + 1 / 2⌋ : ℤ) : ℚ) / 100)) ∧
    (∀ (data : List Record) (dimension : JStr) (g : JStr × Aggregate),
      g ∈ aggregateByDimension data dimension →
      ((g.2.spend > 0 → g.2.roas = ((⌊g.2.revenue / g.2.spend + 1 / 2⌋ : ℤ) : ℚ)) ∧
       (g.2.impressions > 0 →
         g.2.ctr = ((⌊g.2.clicks / g.2.impressions * 100 * 100 + 1 / 2⌋ : ℤ) : ℚ) / 100) ∧
       (g.2.conversions > 0 →
         g.2.cpa = ((⌊g.2.spend / g.2.conversions * 100 + 1 / 2⌋ : ℤ) : ℚ) / 100) ∧
       (g.2.clicks > 0 →
         g.2.conversionRate = ((⌊g.2.conversions / g.2.clicks * 100 * 100 + 1 / 2⌋ : ℤ) : ℚ) / 100) ∧
       (g.2.video_starts > 0 →
         g.2.completionRate = ((⌊g.2.views_100 / g.2.video_starts * 100 * 100 + 1 / 2⌋ : ℤ) : ℚ) / 100) ∧
       (g.2.impressions > 0 →
         g.2.cpm = ((⌊g.2.spend / g.2.impressions * 1000 * 100 + 1 / 2⌋ : ℤ) : ℚ) / 100))) ∧
    (aggregateSingleResult [ctrExampleRecord]).ctr = 3333 / 100 ∧
    (∀ n : ℤ, (aggregateSingleResult [ctrExampleRecord]).ctr ≠ (n : ℚ)) ∧
    (aggregateSingleResult [ctrExampleRecord]).roas = ((3 : ℤ) : ℚ) := by
  have hctr : (aggregateSingleResult [ctrExampleRecord]).ctr = 3333 / 100 := by
    simp only [aggregateSingleResult, sumCounters, List.foldl_cons, List.foldl_nil,
      computeMetrics, Counters.zero, Counters.add, Record.counters, ctrExampleRecord]
    norm_num [jsToFixed2]
  refine ⟨fun data => computeMetrics_rounding (sumCounters data), ?_, hctr, ?_, ?_⟩
  · intro data dimension g hg
    obtain ⟨c, hc⟩ := mem_aggregateByDimension data dimension g hg
    rw [hc]
    exact computeMetrics_rounding c
  · intro n h
    rw [hctr] at h
    have h100 : (3333 : ℚ) = (n : ℚ) * 100 :=
      (div_eq_iff (by norm_num : (100 : ℚ) ≠ 0)).mp h
    have hint : (3333 : ℤ) = n * 100 := by exact_mod_cast h100
    omega
  · simp only [aggregateSingleResult, sumCounters, List.foldl_cons, List.foldl_nil,
      computeMetrics, Counters.zero, Counters.add, Record.counters, ctrExampleRecord]
    norm_num [jsMathRound]

/-- Witness for C4: on the concrete example record (spend 2, revenue 5,
impressions 3, clicks 1) the rounding theorem yields the integer-rounded ROAS
3 and the two-decimal CTR 33.33. -/
theorem aggregate_rounding_spec_witness :
    (aggregateSingleResult [ctrExampleRecord]).roas =
      ((⌊(aggregateSingleResult [ctrExampleRecord]).revenue /
          (aggregateSingleResult [ctrExampleRecord]).spend + 1 / 2⌋ : ℤ) : ℚ) ∧
    (aggregateSingleResult [ctrExampleRecord]).ctr =
      ((⌊(aggregateSingleResult [ctrExampleRecord]).clicks /
          (aggregateSingleResult [ctrExampleRecord]).impressions * 100 * 100 + 1 / 2⌋ : ℤ) : ℚ) / 100 :=
  ⟨(aggregate_rounding_spec.1 [ctrExampleRecord]).1 (by norm_num [aggregateSingleResult,
      sumCounters, computeMetrics, Counters.zero, Counters.add, Record.counters,
      ctrExampleRecord]),
   (aggregate_rounding_spec.1 [ctrExampleRecord]).2.1 (by norm_num [aggregateSingleResult,
      sumCounters, computeMetrics, Counters.zero, Counters.add, Record.counters,
      ctrExampleRecord])⟩

/-- Body of the JSON response built by the first-generation `/chat` catch
handler (`src/server.js` lines 298-304): a fixed apology in `message` plus the
caught error's own message copied into `error`. -/
structure ChatCatchV1Body where
  message : JStr
  error : JStr
deriving DecidableEq

/-- The first-generation catch handler as a function of the caught error's
message text. -/
def chatCatchHandlerV1 (errorMessage : JStr) : ChatCatchV1Body :=
  { message :=
      jstr "Sorry, I encountered an error processing your request. Please try again."
    error := errorMessage }

/-- Shape of the later-generation `/chat` responses. -/
structure ChatResponseV2 where
  success : Bool
  sql : Option JStr
  answer : JStr
  visualization : Option Visualization
deriving DecidableEq

/-- The second-generation catch handler (`src/server.js` lines 1068-1076 of the
goal-free v2 pipeline; the handlers of `src/unnamed/part_000` and
`src/unnamed/part_001` build the same fixed body): success=false, null sql,
a fixed safe answer, no visualization — the caught error is not echoed. -/
def chatCatchHandlerV2 (errorMessage : JStr) : ChatResponseV2 :=
  { success := false
    sql := none
    answer :=
      jstr "I encountered an unexpected error. Please try again or rephrase your question."
    visualization := none }

/-- Claim C8 (counterexample): the first-generation catch handler copies the
raw internal error text into the response it sends to the caller, so the
response is not a fixed safe message — it varies with, and reveals, the
internal error. -/
theorem chatCatchHandlerV1_leaks_error_text :
    (chatCatchHandlerV1 (jstr "connect ECONNREFUSED supabase internal")).error =
      jstr "connect ECONNREFUSED supabase internal" ∧
    chatCatchHandlerV1 (jstr "connect ECONNREFUSED supabase internal") ≠
      chatCatchHandlerV1 (jstr "other") := by
  exact ⟨rfl, by decide⟩

/-- Claim C8 (amended): in the later pipeline generations every unexpected
failure is converted at the `/chat` boundary into the same success=false
response with a fixed safe message, independent of the internal error text;
the first-generation handler of `src/server.js` (lines 298-304) instead also
copies `error.message` into its response, so the claim fails for that handler. -/
theorem chatCatchHandlerV2_fixed_safe (e₁ e₂ : JStr) :
    chatCatchHandlerV2 e₁ = chatCatchHandlerV2 e₂ ∧
    (chatCatchHandlerV2 e₁).success = false ∧
    (chatCatchHandlerV2 e₁).answer =
      jstr "I encountered an unexpected error. Please try again or rephrase your question." ∧
    (chatCatchHandlerV2 e₁).visualization = none :=
  ⟨rfl, rfl, rfl, rfl⟩

/-- The WHERE-filter application of `executeAndAggregate` in
`src/unnamed/part_000`: each of the four dimension filters is extracted by
`parseFilterValues` and applied in turn when present. -/
def applyFilters (data : List Record) (sql : JStr) : List Record :=
  let f1 :=
    match parseFilterValues sql (jstr "platform") with
    | some values => data.filter (fun row => values.contains row.platform)
    | none => data
  let f2 :=
    match parseFilterValues sql (jstr "region") with
    | some values => f1.filter (fun row => values.contains row.region)
    | none => f1
  let f3 :=
    match parseFilterValues sql (jstr "age_group") with
    | some values => f2.filter (fun row => values.contains row.age_group)
    | none => f2
  let f4 :=
    match parseFilterValues sql (jstr "gender") with
    | some values => f3.filter (fun row => values.contains row.gender)
    | none => f3
  f4

/-- The runtime failure raised in the comparison branch of the goal-aware
`executeAndAggregate`: the name `queryResult` is not bound in any enclosing
scope of the function, so evaluating `queryResult.goal` throws. -/
inductive JsRuntimeError
  | referenceErrorQueryResult
deriving DecidableEq

/-- The comparison visualization payload the goal-aware pipeline would build. -/
structure P0Visualization where
  type : JStr
  dimension : Option JStr
  requestedMetrics : List JStr
  goal : Option JStr
  data : List (JStr × Aggregate)
deriving DecidableEq

/-- The aggregated payload of one `executeAndAggregate` result. -/
inductive P0RawData
  | single (a : Aggregate)
  | grouped (m : List (JStr × Aggregate))
deriving DecidableEq

/-- Result structure of the goal-aware `executeAndAggregate`. -/
structure P0ExecResult where
  visualization : Option P0Visualization
  rawData : P0RawData
deriving DecidableEq

/-- Translation of `executeAndAggregate` from `src/unnamed/part_000` (lines 386-460), with the
record fetch supplied as input.  The single branch returns a null
visualization with the whole-set Aggregate.  In the comparison branch the
source computes `aggregateByDimension` and then evaluates
`detectRequestedMetrics(sql, userQuestion, queryResult.goal)`; `queryResult`
is not defined in any enclosing scope of this function, so that expression
raises a ReferenceError before the comparison result object can be built,
and the aggregated groups are discarded. -/
def executeAndAggregateP0 (data : List Record) (sql userQuestion : JStr)
    (goal : Option JStr) : Except JsRuntimeError P0ExecResult :=
  let filteredData := applyFilters data sql
  let visualization := detectVisualization sql
  if visualization.type = jstr "single" then
    .ok { visualization := none
          rawData := .single (aggregateSingleResult filteredData) }
  else
    let _aggregated :=
      aggregateByDimension filteredData (visualization.dimension.getD [])
    .error .referenceErrorQueryResult

/-- The fixed execution-failure answer of the `/chat` handler, assembled
around its embedded quote characters. -/
def execFailureAnswer : JStr :=
  jstr "I ran into an issue retrieving that data. Could you try rephrasing your question? For example: " ++
    [singleQuote] ++ jstr "Which platform has the best ROAS?" ++ [singleQuote] ++
    jstr " or " ++ [singleQuote] ++ jstr "Show me conversion rates by age group" ++
    [singleQuote]

/-- Response shape of the goal-aware `/chat` handler after the execute step. -/
structure P0ChatResponse where
  success : Bool
  sql : Option JStr
  answer : JStr
  visualization : Option P0Visualization
deriving DecidableEq

/-- The execute-and-answer step of the goal-aware `/chat` handler
(`src/unnamed/part_000` lines 915-963): an execution failure is converted to
the fixed success=false fallback; on success the externally rendered answer
and the result's visualization are returned. -/
def chatExecuteStepP0 (render : P0ExecResult → JStr) (data : List Record)
    (sql message : JStr) (goal : Option JStr) : P0ChatResponse :=
  match executeAndAggregateP0 data sql message goal with
  | .error _ =>
    { success := false, sql := some sql, answer := execFailureAnswer,
      visualization := none }
  | .ok result =>
    { success := true, sql := some sql, answer := render result,
      visualization := result.visualization }

/-- Claim C10: for every query whose text contains GROUP BY, the goal-aware
`executeAndAggregate` takes the comparison branch and raises the
ReferenceError caused by the unbound name `queryResult`, so the request
terminates in the execution-failure fallback response — the comparison
visualization structure is never produced by this pipeline version. -/
theorem comparison_branch_raises_referenceError (data : List Record)
    (sql message : JStr) (goal : Option JStr) (render : P0ExecResult → JStr)
    (h : jsIncludes (jsToUpper sql) (jstr "GROUP BY") = true) :
    executeAndAggregateP0 data sql message goal =
      .error .referenceErrorQueryResult ∧
    chatExecuteStepP0 render data sql message goal =
      { success := false, sql := some sql, answer := execFailureAnswer,
        visualization := none } := by
  have hty : (detectVisualization sql).type = jstr "comparison" := by
    simp [detectVisualization, h]
  have hne : ¬ (detectVisualization sql).type = jstr "single" := by
    rw [hty]; decide
  have hexec : executeAndAggregateP0 data sql message goal =
      .error .referenceErrorQueryResult := by
    unfold executeAndAggregateP0
    dsimp only
    rw [if_neg hne]
  refine ⟨hexec, ?_⟩
  unfold chatExecuteStepP0
  rw [hexec]

/-- A concrete comparison query for the C10 witness. -/
def comparisonWitnessSql : JStr :=
  jstr "SELECT platform, SUM(spend) AS total_spend FROM video_ad_performance GROUP BY platform"

/-- Witness for C10: on a concrete GROUP BY query the goal-aware pipeline
raises the ReferenceError and answers with the execution-failure fallback. -/
theorem comparison_branch_raises_referenceError_witness :
    executeAndAggregateP0 [] comparisonWitnessSql (jstr "compare platforms") none =
      .error .referenceErrorQueryResult ∧
    chatExecuteStepP0 (fun _ => []) [] comparisonWitnessSql
      (jstr "compare platforms") none =
      { success := false, sql := some comparisonWitnessSql,
        answer := execFailureAnswer, visualization := none } :=
  comparison_branch_raises_referenceError [] comparisonWitnessSql
    (jstr "compare platforms") none (fun _ => []) (by decide)
